import Mathlib

/-!
Verification development for the crawler in `src/data/crawl_30_pages.py`.

The Python program is shallowly embedded:
* free-form text is `String` (operated on through `List Char`);
* Python `None` is `Option.none`; a Python `float` value is modelled as an
  exact rational (`ℚ`);
* code that can raise is embedded in `Except String`, the string naming the
  Python exception class raised;
* the DOM subtree of one listing is a record of exactly the structure the
  source queries: the address `div` (its `p` children, each with its `a`
  descendants), the title anchor, the price anchor, and the `ul.listing-info`
  `li` items (each with its `i` icon children).  The model assumes the
  children of the address block are exactly its paragraphs, so that the
  selector `p:first-child` picks the head of the paragraph list.
-/

/-! ### Python string primitives -/

/-- Python `str.strip()`: drop whitespace from both ends. -/
def pyStrip (s : String) : String :=
  ((s.toList.dropWhile Char.isWhitespace).reverse.dropWhile Char.isWhitespace).reverse.asString

/-- Python `str.replace(pat, rep)` on character lists: replace every
left-to-right, non-overlapping occurrence of `pat`.  Fuel-indexed so that the
definition is structural; one character is consumed per step, so fuel equal to
the length of the string suffices. -/
def pyReplaceAux : Nat → List Char → List Char → List Char → List Char
  | 0, s, _, _ => s
  | _ + 1, [], _, _ => []
  | fuel + 1, c :: cs, pat, rep =>
    if pat ≠ [] ∧ pat.isPrefixOf (c :: cs) then
      rep ++ pyReplaceAux fuel ((c :: cs).drop pat.length) pat rep
    else
      c :: pyReplaceAux fuel cs pat rep

/-- Python `s.replace(pat, rep)` on strings. -/
def pyReplace (s pat rep : String) : String :=
  (pyReplaceAux s.toList.length s.toList pat.toList rep.toList).asString

/-- Python `' '.join(parts)`. -/
def joinSpace : List String → String
  | [] => ""
  | x :: xs => xs.foldl (fun acc y => acc ++ " " ++ y) x

/-- Python `needle in hay` substring containment on character lists. -/
def containsSub : List Char → List Char → Bool
  | [], needle => needle.isEmpty
  | c :: cs, needle => needle.isPrefixOf (c :: cs) || containsSub cs needle

/-! ### `extract_number` -/

/-- Character class of the regex `[\d.]+`. -/
def isDigitDot (c : Char) : Bool := c.isDigit || c == '.'

/-- Value of a list of decimal digits, most significant first. -/
def digitsToNat (l : List Char) : Nat := l.foldl (fun n c => 10 * n + (c.toNat - 48)) 0

/-- Value of a digits-and-dots run accepted by Python `float`:
integer part before the first `'.'`, fractional part after it. -/
def runValue (r : List Char) : ℚ :=
  (digitsToNat (r.takeWhile (fun c => c ≠ '.')) : ℚ) +
    (digitsToNat ((r.dropWhile (fun c => c ≠ '.')).drop 1) : ℚ) /
      10 ^ ((r.dropWhile (fun c => c ≠ '.')).drop 1).length

/-- Python `float(run)` for a run of characters drawn from `[0-9.]`:
succeeds iff the run holds at most one dot and at least one digit,
otherwise raises `ValueError`. -/
def floatOfRun (r : List Char) : Except String ℚ :=
  if r.count '.' ≤ 1 ∧ r.any Char.isDigit then .ok (runValue r) else .error "ValueError"

/-- The embedding of `re.search(r'[\d.]+', text)`: the leftmost maximal run of characters in
the class `[0-9.]`, or `none` when no such character occurs. -/
def firstDigitDotRun : List Char → Option (List Char)
  | [] => none
  | c :: cs =>
    if isDigitDot c then some (c :: cs.takeWhile isDigitDot) else firstDigitDotRun cs

/-- The function `extract_number` from the source: `None`/empty input gives `None`;
otherwise the first `[\d.]+` match is fed to `float`, which may raise. -/
def extract_number : Option String → Except String (Option ℚ)
  | none => .ok none
  | some s =>
    if s = "" then .ok none
    else
      match firstDigitDotRun s.toList with
      | none => .ok none
      | some r => (floatOfRun r).map some

/-- All maximal runs of `[0-9.]` characters of a text, left to right
(fuel-indexed; at least one character is consumed per emitted or skipped
step, so fuel equal to the length suffices). -/
def dtRunsAux : Nat → List Char → List (List Char)
  | 0, _ => []
  | _ + 1, [] => []
  | fuel + 1, c :: cs =>
    if isDigitDot c then
      (c :: cs.takeWhile isDigitDot) :: dtRunsAux fuel (cs.dropWhile isDigitDot)
    else
      dtRunsAux fuel cs

/-- All maximal `[0-9.]` runs of a character list. -/
def dtRuns (l : List Char) : List (List Char) := dtRunsAux l.length l

/-- The numeric substrings of a text: maximal `[0-9.]` runs holding at
least one digit. -/
def numericRuns (l : List Char) : List (List Char) :=
  (dtRuns l).filter (fun r => r.any Char.isDigit)

/-! ### Python numeric primitives -/

/-- Python `int(q)` on a float: truncation toward zero. -/
def pyInt (q : ℚ) : ℤ := if 0 ≤ q then ⌊q⌋ else ⌈q⌉

/-- Python `round` to an integer: round half to even. -/
def roundHalfEven (q : ℚ) : ℤ :=
  if q - ⌊q⌋ < 1 / 2 then ⌊q⌋
  else if (1 : ℚ) / 2 < q - ⌊q⌋ then ⌊q⌋ + 1
  else if ⌊q⌋ % 2 = 0 then ⌊q⌋ else ⌊q⌋ + 1

/-- Python `round(q, 2)`. -/
def pyRound2 (q : ℚ) : ℚ := (roundHalfEven (q * 100) : ℚ) / 100

/-! ### DOM model of one listing article -/

/-- An `a` element: its rendered text and the two attributes the source
reads (`get_attribute` yields `none` when the attribute is absent). -/
structure Anchor where
  text : String
  title_attr : Option String
  href_attr : Option String
deriving DecidableEq

/-- A `p` child of the address block, with its `a` descendants in document
order. -/
structure Paragraph where
  text : String
  anchors : List Anchor
deriving DecidableEq

/-- The `div.listing-address` block: its `p` children in document order. -/
structure AddressBlock where
  paragraphs : List Paragraph
deriving DecidableEq

/-- An `i` icon element: its `class` attribute, possibly absent. -/
structure Icon where
  class_attr : Option String
deriving DecidableEq

/-- One `ul.listing-info li` item: its rendered text and its `i`
descendants in document order (`query_selector('i')` picks the head). -/
structure InfoItem where
  text : String
  icons : List Icon
deriving DecidableEq

/-- The DOM subtree of one `article.box.listView` element, restricted to
the parts the source queries. -/
structure Article where
  address_block : Option AddressBlock
  titleAnchor : Option Anchor
  priceAnchor : Option Anchor
  infoItems : List InfoItem
deriving DecidableEq

/-! ### `parse_listing` -/

/-- One output row, the dict built by `parse_listing` (keys in source order:
ID tin, Tiêu đề, Giá (tỷ), Diện tích (m²), PN, WC, Địa chỉ, Hướng, Link,
Giá/m² (triệu)). -/
structure ListingRecord where
  property_id : Option String
  title : Option String
  price : Option ℚ
  area : Option ℚ
  pn : Option ℤ
  wc : Option ℤ
  address : Option String
  direction : Option String
  url : Option String
  price_per_m2 : Option ℚ
deriving DecidableEq

/-- The four mutable loop variables of the info-list loop. -/
structure InfoState where
  bedrooms : Option ℚ
  bathrooms : Option ℚ
  area : Option ℚ
  direction : Option String
deriving DecidableEq

/-- Initial info-list loop state: all four variables `None`. -/
def emptyInfo : InfoState := ⟨none, none, none, none⟩

/-- One iteration of the info-list loop.  When the item's first icon has no
`class` attribute, `'…' in class_name` raises a `TypeError` (membership test
on `None`); an unrecognized class leaves the state unchanged; each
recognized class overwrites its category with the freshly extracted value
(last seen wins). -/
def classifyStep (st : InfoState) (item : InfoItem) : Except String InfoState :=
  let text := pyStrip item.text
  match item.icons.head? with
  | none => .ok st
  | some ic =>
    match ic.class_attr with
    | none => .error "TypeError"
    | some cls =>
      if containsSub cls.toList "zmdi-airline-seat-individual-suite".toList then
        (extract_number (some text)).map (fun v => { st with bedrooms := v })
      else if containsSub cls.toList "icon-bath-room".toList then
        (extract_number (some text)).map (fun v => { st with bathrooms := v })
      else if containsSub cls.toList "zmdi-photo-size-select-small".toList then
        (extract_number (some (pyStrip (pyReplace text "m²" "")))).map
          (fun v => { st with area := v })
      else if containsSub cls.toList "zmdi-compass".toList then
        .ok { st with direction := some (pyStrip text) }
      else .ok st

/-- The whole info-list loop over the `li` items. -/
def infoFold (a : Article) : Except String InfoState :=
  a.infoItems.foldlM classifyStep emptyInfo

/-- Property id: `query_selector('div.listing-address p:first-child')`,
then `.inner_text().strip().replace(' •', '')` when the element exists. -/
def idOf (a : Article) : Option String :=
  (a.address_block.bind (fun b => b.paragraphs.head?)).map
    (fun p => pyReplace (pyStrip p.text) " •" "")

/-- Price: text of `div.listing-price a.listing-price-link`, stripped; when
that text is non-empty, `extract_number` of the text with `tỷ` and `VND`
removed (this call may raise `ValueError`). -/
def priceOf (a : Article) : Except String (Option ℚ) :=
  match a.priceAnchor with
  | none => .ok none
  | some an =>
    let ptext := pyStrip an.text
    if ptext = "" then .ok none
    else extract_number (some (pyReplace (pyReplace ptext "tỷ" "") "VND" ""))

/-- Address: all anchors under `div.listing-address p` (every paragraph,
the first included), texts stripped, empties dropped, survivors joined with
single spaces; `None` when none survive. -/
def addressOf (a : Article) : Option String :=
  let parts :=
    ((((a.address_block.map (fun b => b.paragraphs)).getD []).flatMap
        (fun p => p.anchors)).map (fun an => pyStrip an.text)).filter (fun t => t ≠ "")
  if parts.isEmpty then none else some (joinSpace parts)

/-- The final dict: `PN`/`WC` truncate the float when it is truthy
(`int(bedrooms) if bedrooms else None`); the derived price per square meter
is computed only when both `price` and `area` are truthy
(`if price and area:`). -/
def buildRecord (pid title url : Option String) (price : Option ℚ)
    (addr : Option String) (st : InfoState) : ListingRecord :=
  { property_id := pid
    title := title
    price := price
    area := st.area
    pn := match st.bedrooms with
      | some v => if v = 0 then none else some (pyInt v)
      | none => none
    wc := match st.bathrooms with
      | some v => if v = 0 then none else some (pyInt v)
      | none => none
    address := addr
    direction := st.direction
    url := url
    price_per_m2 := match price, st.area with
      | some p, some ar => if p ≠ 0 ∧ ar ≠ 0 then some (pyRound2 (p * 1000 / ar)) else none
      | _, _ => none }

/-- The body of `parse_listing`'s `try` block, in source order; the two
spots that can raise are the price extraction and the info-list loop. -/
def parseListingCore (a : Article) : Except String ListingRecord := do
  let price ← priceOf a
  let st ← infoFold a
  return buildRecord (idOf a) (a.titleAnchor.bind (fun an => an.title_attr))
    (a.titleAnchor.bind (fun an => an.href_attr)) price (addressOf a) st

/-- The function `parse_listing`: any exception inside the body is caught and turned
into `None` (the listing is dropped). -/
def parse_listing (a : Article) : Option ListingRecord :=
  (parseListingCore a).toOption

/-! ### `crawl_page` and `main` -/

/-- Outcome of rendering one page: navigation raised, the wait for
`article.box.listView` timed out, or the listing articles were found. -/
inductive PageOutcome where
  | navError
  | waitTimeout
  | found (articles : List Article)
deriving DecidableEq

/-- The function `crawl_page`: the `try` block catches navigation/wait failures and
returns `[]`; otherwise every article is parsed and the non-`None` records
are kept in document order (`if listing_data:` — a non-empty dict is
truthy). -/
def crawl_page (o : PageOutcome) : List ListingRecord :=
  match o with
  | .navError => []
  | .waitTimeout => []
  | .found arts => arts.filterMap parse_listing

/-- The crawl loop of `main`: visit the page indices in order, extend one
accumulator with each page's records. -/
def crawl_range (renderer : Nat → PageOutcome) (pages : List Nat) : List ListingRecord :=
  pages.flatMap (fun i => crawl_page (renderer i))

/-- The step `df.insert(0, 'STT', range(1, len(df) + 1))`: pair row `i` (0-based)
with sequence number `i + 1`. -/
def addSTT (records : List ListingRecord) : List (Nat × ListingRecord) :=
  (List.range' 1 records.length).zip records

/-- The ten dict keys of every record built by `parse_listing`, in
insertion order; these are the columns of `pd.DataFrame(all_listings)`
when the list is non-empty (an empty list yields a frame with no columns). -/
def recordKeys : List String :=
  ["ID tin", "Tiêu đề", "Giá (tỷ)", "Diện tích (m²)", "PN", "WC",
   "Địa chỉ", "Hướng", "Link", "Giá/m² (triệu)"]

/-- The `column_order` list used to reorder the frame. -/
def column_order : List String :=
  ["STT", "ID tin", "Tiêu đề", "Giá (tỷ)", "Diện tích (m²)", "PN", "WC",
   "Địa chỉ", "Hướng", "Link", "Giá/m² (triệu)"]

/-- The export tail of `main`: build the frame (columns are the record keys
when any record exists, no columns otherwise), insert `STT`, then select
`column_order` — `df[column_order]` raises `KeyError` when any requested
column is missing. -/
def main_export (records : List ListingRecord) :
    Except String (List (Nat × ListingRecord)) :=
  let cols := "STT" :: (if records.isEmpty then [] else recordKeys)
  if column_order.all (fun c => cols.contains c) then .ok (addSTT records)
  else .error "KeyError"

/-- The function `main`: crawl pages 1..30, then export. -/
def main_run (renderer : Nat → PageOutcome) :
    Except String (List (Nat × ListingRecord)) :=
  main_export (crawl_range renderer (List.range' 1 30))

/-! ### Definitions following the spec's words (for comparison only) -/

/-- Modelled from the spec: the address as §4.2 step 4 words it — anchor
texts of the address block **excluding the identifier paragraph** (the
first paragraph child), trimmed, empties dropped, joined with single
spaces, absent when none survive. -/
def spec_address (a : Article) : Option String :=
  let parts :=
    ((((a.address_block.map (fun b => b.paragraphs.drop 1)).getD []).flatMap
        (fun p => p.anchors)).map (fun an => pyStrip an.text)).filter (fun t => t ≠ "")
  if parts.isEmpty then none else some (joinSpace parts)

/-- Modelled from the spec: §4.2 step 1 — strip one **trailing** bullet
separator token if present, leaving the rest of the text unchanged. -/
def spec_strip_trailing (s : String) : String :=
  if " •".toList.isSuffixOf s.toList then (s.toList.dropLast.dropLast).asString else s

/-- Decidable equality of embedded fallible results. -/
instance {ε α : Type} [DecidableEq ε] [DecidableEq α] : DecidableEq (Except ε α) := fun x y =>
  match x, y with
  | .ok a, .ok b =>
    if h : a = b then isTrue (congrArg Except.ok h)
    else isFalse (fun he => h (Except.ok.inj he))
  | .error e, .error f =>
    if h : e = f then isTrue (congrArg Except.error h)
    else isFalse (fun he => h (Except.error.inj he))
  | .ok _, .error _ => isFalse (fun he => Except.noConfusion he)
  | .error _, .ok _ => isFalse (fun he => Except.noConfusion he)

/-! ### Concrete articles used as test inputs -/

/-- An article with none of the queried elements: parses to an all-absent
record. -/
def emptyArticle : Article := ⟨none, none, none, []⟩

/-- The all-absent record `emptyArticle` parses to. -/
def emptyRecord : ListingRecord :=
  ⟨none, none, none, none, none, none, none, none, none, none⟩

/-- An article whose price text parses to `0` and whose area item parses to
`50`: both fields present, area nonzero, price zero. -/
def exC1 : Article :=
  ⟨none, none, some ⟨"0 tỷ", none, none⟩,
    [⟨"50 m²", [⟨some "zmdi zmdi-photo-size-select-small"⟩]⟩]⟩

/-- The info-list state `exC1` reaches. -/
def exSt1 : InfoState := ⟨none, none, some (runValue ['5', '0']), none⟩

/-- The record `exC1` parses to. -/
def exRec1 : ListingRecord :=
  buildRecord none none none (some (runValue ['0'])) none exSt1

/-- An article whose price text parses to `2` and whose area item parses to
`50`. -/
def wA1 : Article :=
  ⟨none, none, some ⟨"2 tỷ", none, none⟩,
    [⟨"50 m²", [⟨some "zmdi zmdi-photo-size-select-small"⟩]⟩]⟩

/-- The record `wA1` parses to. -/
def wRec1 : ListingRecord :=
  buildRecord none none none (some (runValue ['2'])) none exSt1

/-- An article whose address block has an anchor inside its first
(identifier) paragraph and another inside its second paragraph. -/
def exC5 : Article :=
  ⟨some ⟨[⟨"ID", [⟨"X", none, none⟩]⟩, ⟨"", [⟨"Y", none, none⟩]⟩]⟩, none, none, []⟩

/-- The record `exC5` parses to. -/
def exRec5 : ListingRecord :=
  ⟨some "ID", none, none, none, none, none, some "X Y", none, none, none⟩

/-- An article whose identifier paragraph text holds the bullet separator
token twice, in the middle and at the end. -/
def exC6 : Article := ⟨some ⟨[⟨"1 •2 •", []⟩]⟩, none, none, []⟩

/-- The record `exC6` parses to: both separator occurrences are removed. -/
def exRec6 : ListingRecord :=
  ⟨some "12", none, none, none, none, none, none, none, none, none⟩

/-- An article with one info item whose icon carries no `class` attribute. -/
def wA9 : Article := ⟨none, none, none, [⟨"5 PN", [⟨none⟩]⟩]⟩

/-- An article whose bedrooms item parses to `3` and whose bathrooms item
parses to `0`. -/
def wA10 : Article :=
  ⟨none, none, none,
    [⟨"3 PN", [⟨some "zmdi zmdi-airline-seat-individual-suite"⟩]⟩,
     ⟨"0 WC", [⟨some "icon icon-bath-room"⟩]⟩]⟩

/-- The info-list state `wA10` reaches. -/
def wSt10 : InfoState := ⟨some (runValue ['3']), some (runValue ['0']), none, none⟩

/-- The record `wA10` parses to. -/
def wRec10 : ListingRecord :=
  buildRecord none none none none none wSt10

/-- A renderer for a three-page scenario: pages 1, 2 and 3 yield two, zero
and five parsable listings. -/
def renderer8 : Nat → PageOutcome := fun i =>
  if i = 1 then .found [emptyArticle, emptyArticle]
  else if i = 2 then .found []
  else .found [emptyArticle, emptyArticle, emptyArticle, emptyArticle, emptyArticle]

/-! ### General lemmas about the embedding -/

theorem except_ok_bind {ε α β : Type} (a : α) (f : α → Except ε β) :
    (Except.ok a : Except ε α) >>= f = f a := rfl

theorem except_error_bind {ε α β : Type} (e : ε) (f : α → Except ε β) :
    (Except.error e : Except ε α) >>= f = .error e := rfl

theorem except_toOption_eq_some {ε α : Type} {e : Except ε α} {a : α} :
    e.toOption = some a ↔ e = .ok a := by
  cases e <;> simp [Except.toOption]

/-- No character of the class `[0-9.]` occurs: the regex finds no match. -/
theorem firstDigitDotRun_eq_none {l : List Char}
    (h : ∀ c ∈ l, isDigitDot c = false) : firstDigitDotRun l = none := by
  induction l with
  | nil => rfl
  | cons c cs ih =>
    rw [firstDigitDotRun, h c (by simp), if_neg (by simp)]
    exact ih fun d hd => h d (by simp [hd])

/-- With enough fuel, the head of the run list is the regex's first match. -/
theorem dtRunsAux_head (fuel : Nat) :
    ∀ l : List Char, l.length ≤ fuel →
      (dtRunsAux fuel l).head? = firstDigitDotRun l := by
  induction fuel with
  | zero =>
    intro l hl
    rw [Nat.le_zero, List.length_eq_zero] at hl
    subst hl; rfl
  | succ n ih =>
    intro l hl
    match l with
    | [] => rfl
    | c :: cs =>
      rw [dtRunsAux, firstDigitDotRun]
      by_cases hc : isDigitDot c = true
      · rw [if_pos hc, if_pos hc]; rfl
      · rw [if_neg hc, if_neg hc]
        exact ih cs (Nat.le_of_succ_le_succ hl)

/-! ### Claim C2 -/

/-- C2, as stated, is false: on an input made only of dots the regex
`[\d.]+` does match, and `float('...')` raises `ValueError`, so
`extract_number` raises instead of returning absent. -/
theorem claim2_counterexample :
    ("...".toList.all (fun c => !c.isDigit) = true) ∧
    extract_number (some "...") = .error "ValueError" := by
  exact ⟨by decide, by decide⟩

/-- C2 (amended): for every text input containing no digit **and no dot**
character, `extract_number` returns absent and does not raise. -/
theorem claim2_no_digit_no_dot_absent (s : String)
    (h : s.toList.all (fun c => !isDigitDot c) = true) :
    extract_number (some s) = .ok none := by
  by_cases hs : s = ""
  · subst hs; rfl
  · rw [List.all_eq_true] at h
    rw [extract_number, if_neg hs,
      firstDigitDotRun_eq_none (fun c hc => by simpa using h c hc)]

theorem claim2_witness :
    ("xyz!".toList.all (fun c => !isDigitDot c) = true) ∧
    extract_number (some "xyz!") = .ok none :=
  ⟨by decide, claim2_no_digit_no_dot_absent "xyz!" (by decide)⟩

/-! ### Claim C3 -/

/-- C3, as stated, is false: "a. 3" contains exactly one numeric substring,
`3`, with no decimal point, yet the regex's first `[\d.]+` match is the
lone dot after the letter, and `float('.')` raises `ValueError`. -/
theorem claim3_counterexample :
    numericRuns "a. 3".toList = [['3']] ∧
    extract_number (some "a. 3") = .error "ValueError" ∧
    (Except.error "ValueError" : Except String (Option ℚ)) ≠
      .ok (some (runValue ['3'])) := by
  refine ⟨by decide, by decide, by decide⟩

/-- C3 (amended): when the text's only maximal run of digit-or-dot
characters is its single numeric substring (so no stray dot occurs
elsewhere) and that run has at most one decimal point, `extract_number`
returns that run's value as a float regardless of the surrounding
non-numeric tokens. -/
theorem claim3_first_run_value (s : String) (r : List Char)
    (h1 : dtRuns s.toList = [r]) (h2 : r.count '.' ≤ 1)
    (h3 : r.any Char.isDigit = true) :
    extract_number (some s) = .ok (some (runValue r)) := by
  have hhead : firstDigitDotRun s.toList = some r := by
    rw [← dtRunsAux_head s.toList.length s.toList (Nat.le_refl _)]
    rw [dtRuns] at h1
    rw [h1]; rfl
  have hs : s ≠ "" := by
    intro he
    subst he
    simp [firstDigitDotRun] at hhead
  rw [extract_number, if_neg hs, hhead]
  have hf : floatOfRun r = .ok (runValue r) := by
    unfold floatOfRun
    rw [if_pos ⟨h2, h3⟩]
  show Except.map some (floatOfRun r) = .ok (some (runValue r))
  rw [hf]
  rfl

theorem claim3_witness :
    dtRuns "ab 3.5 cd".toList = [['3', '.', '5']] ∧
    extract_number (some "ab 3.5 cd") = .ok (some (runValue ['3', '.', '5'])) :=
  ⟨by decide,
    claim3_first_run_value "ab 3.5 cd" ['3', '.', '5'] (by decide) (by decide) (by decide)⟩

/-! ### Inversion of `parse_listing` -/

theorem except_pure_eq_ok {ε α : Type} (x : α) : (pure x : Except ε α) = .ok x := rfl

/-- The body `parseListingCore` written as an explicit bind chain. -/
theorem parseCore_eq (a : Article) :
    parseListingCore a = (priceOf a) >>= (fun price => (infoFold a) >>= (fun st =>
      pure (buildRecord (idOf a) (a.titleAnchor.bind fun an => an.title_attr)
        (a.titleAnchor.bind fun an => an.href_attr) price (addressOf a) st))) := rfl

/-- When neither the price extraction nor the info-list loop raises, the
listing parses to the dict built from the intermediate values. -/
theorem parse_listing_ok {a : Article} {p : Option ℚ} {st : InfoState}
    (hp : priceOf a = .ok p) (hf : infoFold a = .ok st) :
    parse_listing a = some (buildRecord (idOf a)
      (a.titleAnchor.bind fun an => an.title_attr)
      (a.titleAnchor.bind fun an => an.href_attr) p (addressOf a) st) := by
  rw [parse_listing, parseCore_eq, hp, except_ok_bind, hf, except_ok_bind]
  rfl

/-- Conversely, a successful parse determines the intermediate values. -/
theorem parse_listing_inv {a : Article} {rec : ListingRecord}
    (h : parse_listing a = some rec) :
    ∃ p st, priceOf a = .ok p ∧ infoFold a = .ok st ∧
      rec = buildRecord (idOf a) (a.titleAnchor.bind fun an => an.title_attr)
        (a.titleAnchor.bind fun an => an.href_attr) p (addressOf a) st := by
  rw [parse_listing, except_toOption_eq_some] at h
  cases hp : priceOf a with
  | error e =>
    rw [parseCore_eq, hp, except_error_bind] at h
    exact absurd h (by simp)
  | ok p =>
    cases hf : infoFold a with
    | error e =>
      rw [parseCore_eq, hp, except_ok_bind, hf, except_error_bind] at h
      exact absurd h (by simp)
    | ok st =>
      rw [parseCore_eq, hp, except_ok_bind, hf, except_ok_bind,
        except_pure_eq_ok] at h
      exact ⟨p, st, rfl, rfl, (Except.ok.inj h).symm⟩

/-- Evaluation helper for `runValue` on concrete runs. -/
theorem runValue_eval (r : List Char) (i f k : ℕ)
    (h1 : digitsToNat (r.takeWhile (fun c => c ≠ '.')) = i)
    (h2 : digitsToNat ((r.dropWhile (fun c => c ≠ '.')).drop 1) = f)
    (h3 : ((r.dropWhile (fun c => c ≠ '.')).drop 1).length = k) :
    runValue r = (i : ℚ) + (f : ℚ) / 10 ^ k := by
  unfold runValue
  rw [h1, h2, h3]

/-! ### Claim C10 -/

/-- C10: the stored bedroom/bathroom count is determined by Python
truthiness of the normalized value: `0` (like `None`) gives an absent
count, a nonzero value is truncated to an integer. -/
theorem claim10_truthy_counts (a : Article) (rec : ListingRecord) (st : InfoState)
    (h : parse_listing a = some rec) (hf : infoFold a = .ok st) :
    rec.pn = (match st.bedrooms with
      | some v => if v = 0 then none else some (pyInt v)
      | none => none) ∧
    rec.wc = (match st.bathrooms with
      | some v => if v = 0 then none else some (pyInt v)
      | none => none) := by
  obtain ⟨p, st', hp, hf', hrec⟩ := parse_listing_inv h
  rw [hf] at hf'
  cases Except.ok.inj hf'
  subst hrec
  exact ⟨rfl, rfl⟩

theorem claim10_witness :
    parse_listing wA10 = some wRec10 ∧ infoFold wA10 = .ok wSt10 ∧
    (wRec10.pn = (match wSt10.bedrooms with
      | some v => if v = 0 then none else some (pyInt v)
      | none => none) ∧
     wRec10.wc = (match wSt10.bathrooms with
      | some v => if v = 0 then none else some (pyInt v)
      | none => none)) :=
  ⟨parse_listing_ok rfl rfl, rfl,
    claim10_truthy_counts wA10 wRec10 wSt10 (parse_listing_ok rfl rfl) rfl⟩

/-! ### Claim C1 -/

/-- C1, as stated, is false: `if price and area:` tests Python truthiness,
so a present price of `0.0` (here parsed from the text `"0 tỷ"`) suppresses
the derived field even though price and area are both present and area is
nonzero. -/
theorem claim1_counterexample :
    parse_listing exC1 = some exRec1 ∧
    exRec1.price ≠ none ∧ exRec1.area ≠ none ∧ exRec1.area ≠ some 0 ∧
    exRec1.price_per_m2 = none := by
  have e0 : runValue ['0'] = 0 := by
    rw [runValue_eval ['0'] 0 0 0 rfl rfl rfl]; norm_num
  have e50 : runValue ['5', '0'] = 50 := by
    rw [runValue_eval ['5', '0'] 50 0 0 rfl rfl rfl]; norm_num
  refine ⟨parse_listing_ok rfl rfl, ?_, ?_, ?_, ?_⟩
  · simp [exRec1, buildRecord]
  · simp [exRec1, buildRecord, exSt1]
  · simp [exRec1, buildRecord, exSt1, e50]
  · simp [exRec1, buildRecord, exSt1, e0]

/-- C1 (amended): `price_per_sq_m_million` is present iff `price_billion`
and `area_sq_m` are both present **and both nonzero**; whenever the field
is computed its value is `round(price_billion * 1000 / area_sq_m, 2)`. -/
theorem claim1_price_per_sqm (a : Article) (rec : ListingRecord)
    (h : parse_listing a = some rec) :
    (rec.price_per_m2 ≠ none ↔
      (rec.price ≠ none ∧ rec.price ≠ some 0 ∧ rec.area ≠ none ∧ rec.area ≠ some 0)) ∧
    rec.price_per_m2 = (match rec.price, rec.area with
      | some p, some ar => if p ≠ 0 ∧ ar ≠ 0 then some (pyRound2 (p * 1000 / ar)) else none
      | _, _ => none) := by
  obtain ⟨p, st, hp, hf, hrec⟩ := parse_listing_inv h
  subst hrec
  constructor
  · rcases p with _ | pv <;> rcases harea : st.area with _ | av <;>
      simp [buildRecord, harea]
  · rcases p with _ | pv <;> rcases harea : st.area with _ | av <;>
      simp [buildRecord, harea]

theorem claim1_witness :
    parse_listing wA1 = some wRec1 ∧
    (wRec1.price_per_m2 ≠ none ↔
      (wRec1.price ≠ none ∧ wRec1.price ≠ some 0 ∧
       wRec1.area ≠ none ∧ wRec1.area ≠ some 0)) :=
  ⟨parse_listing_ok rfl rfl,
    (claim1_price_per_sqm wA1 wRec1 (parse_listing_ok rfl rfl)).1⟩

/-! ### Claim C5 -/

/-- A fold that keeps appending `" " ++ y` never empties a string. -/
theorem joinSpace_foldl_ne_empty (xs : List String) :
    ∀ acc : String, acc ≠ "" → xs.foldl (fun a y => a ++ " " ++ y) acc ≠ "" := by
  induction xs with
  | nil => intro acc h; simpa using h
  | cons y ys ih =>
    intro acc _
    rw [List.foldl_cons]
    apply ih
    intro he
    have := congrArg String.length he
    simp [String.length_append, show (" ").length = 1 from rfl] at this

/-- The single-space join of non-empty fragments is non-empty. -/
theorem joinSpace_ne_empty {parts : List String}
    (hne : parts ≠ []) (h : ∀ t ∈ parts, t ≠ "") : joinSpace parts ≠ "" := by
  match parts with
  | [] => exact absurd rfl hne
  | x :: xs =>
    rw [joinSpace]
    exact joinSpace_foldl_ne_empty xs x (h x (by simp))

/-- C5, as stated, is false: the selector `div.listing-address p a` walks
**every** paragraph of the address block, the identifier paragraph included,
so an anchor inside the first paragraph enters the join.  `spec_address`
follows the spec's words (excluding the first paragraph) and disagrees with
the parsed record on `exC5`. -/
theorem claim5_counterexample :
    parse_listing exC5 = some exRec5 ∧
    exRec5.address = some "X Y" ∧
    spec_address exC5 = some "Y" ∧
    exRec5.address ≠ spec_address exC5 := by
  refine ⟨by decide, by decide, by decide, by decide⟩

/-- C5 (amended): the address is the single-space join of the trimmed,
non-empty anchor texts of **all** paragraphs of the address block (the
identifier paragraph included); when no fragment survives, the field is
absent — it is never the empty string. -/
theorem claim5_address (a : Article) (rec : ListingRecord)
    (h : parse_listing a = some rec) :
    rec.address =
      (if (((((a.address_block.map (fun b => b.paragraphs)).getD []).flatMap
            (fun p => p.anchors)).map (fun an => pyStrip an.text)).filter
            (fun t => t ≠ "")).isEmpty
       then none
       else some (joinSpace (((((a.address_block.map (fun b => b.paragraphs)).getD
            []).flatMap (fun p => p.anchors)).map (fun an => pyStrip an.text)).filter
            (fun t => t ≠ "")))) ∧
    rec.address ≠ some "" := by
  obtain ⟨p, st, hp, hf, hrec⟩ := parse_listing_inv h
  subst hrec
  refine ⟨rfl, ?_⟩
  show addressOf a ≠ some ""
  simp only [addressOf]
  set parts := (((((a.address_block.map (fun b => b.paragraphs)).getD []).flatMap
      (fun p => p.anchors)).map (fun an => pyStrip an.text)).filter
      (fun t => t ≠ "")) with hparts
  by_cases he : parts.isEmpty
  · rw [if_pos he]
    simp
  · rw [if_neg he]
    have h1 : parts ≠ [] := by
      intro hnil
      rw [hnil] at he
      exact he rfl
    have h2 : ∀ t ∈ parts, t ≠ "" := by
      intro t ht
      rw [hparts] at ht
      exact of_decide_eq_true ((List.mem_filter.mp ht).2)
    intro hcontra
    exact joinSpace_ne_empty h1 h2 (Option.some_inj.mp hcontra)

theorem claim5_witness :
    parse_listing exC5 = some exRec5 ∧ exRec5.address ≠ some "" :=
  ⟨by decide, (claim5_address exC5 exRec5 (by decide)).2⟩

/-! ### Claim C6 -/

/-- C6, as stated, is false: `.replace(' •', '')` removes **every**
occurrence of the bullet separator token, not only a trailing one.  On the
identifier text `"1 •2 •"` the code yields `"12"`, while stripping only a
trailing token (the spec's words, `spec_strip_trailing`) yields `"1 •2"`. -/
theorem claim6_counterexample :
    parse_listing exC6 = some exRec6 ∧
    exRec6.property_id = some "12" ∧
    spec_strip_trailing (pyStrip "1 •2 •") = "1 •2" ∧
    ("12" : String) ≠ "1 •2" := by
  refine ⟨by decide, by decide, by decide, by decide⟩

/-- C6 (amended): the listing id is the first paragraph's trimmed text with
**every** occurrence of the bullet separator token `" •"` removed. -/
theorem claim6_property_id (a : Article) (rec : ListingRecord) (p : Paragraph)
    (h : parse_listing a = some rec)
    (hp : a.address_block.bind (fun b => b.paragraphs.head?) = some p) :
    rec.property_id = some (pyReplace (pyStrip p.text) " •" "") := by
  obtain ⟨q, st, _, _, hrec⟩ := parse_listing_inv h
  subst hrec
  show idOf a = _
  rw [idOf, hp]
  rfl

theorem claim6_witness :
    parse_listing exC6 = some exRec6 ∧
    exRec6.property_id = some (pyReplace (pyStrip "1 •2 •") " •" "") :=
  ⟨by decide,
    claim6_property_id exC6 exRec6 ⟨"1 •2 •", []⟩ (by decide) (by decide)⟩

/-! ### Claim C9 -/

/-- A successful info-list loop certifies that no traversed item carries an
icon with absent `class` attribute. -/
theorem foldlM_ok_no_absent_class (items : List InfoItem) :
    ∀ s s' : InfoState, items.foldlM classifyStep s = .ok s' →
      ∀ item ∈ items, ∀ ic, item.icons.head? = some ic → ic.class_attr ≠ none := by
  induction items with
  | nil =>
    intro s s' _ item hmem
    simp at hmem
  | cons i is ih =>
    intro s s' h item hmem ic hic hcls
    rw [List.foldlM_cons] at h
    cases hc : classifyStep s i with
    | error e =>
      rw [hc, except_error_bind] at h
      exact absurd h (by simp)
    | ok s1 =>
      rw [hc, except_ok_bind] at h
      rcases List.mem_cons.mp hmem with rfl | hmem'
      · simp [classifyStep, hic, hcls] at hc
      · exact ih s1 s' h item hmem' ic hic hcls

/-- C9: an info-list item whose icon has no `class` attribute makes the
membership test `'…' in class_name` raise a `TypeError` on `None`; the
`except` block then discards the **entire** listing (the parse yields
`None`), instead of skipping just that item. -/
theorem claim9_absent_icon_class (a : Article) (item : InfoItem) (ic : Icon)
    (hmem : item ∈ a.infoItems) (hic : item.icons.head? = some ic)
    (hcls : ic.class_attr = none) :
    parse_listing a = none := by
  cases hpl : parse_listing a with
  | none => rfl
  | some rec =>
    exfalso
    obtain ⟨p, st, hp, hf, _⟩ := parse_listing_inv hpl
    exact foldlM_ok_no_absent_class a.infoItems emptyInfo st hf item hmem ic hic hcls

theorem claim9_witness :
    (⟨"5 PN", [⟨none⟩]⟩ : InfoItem) ∈ wA9.infoItems ∧ parse_listing wA9 = none :=
  ⟨by decide,
    claim9_absent_icon_class wA9 ⟨"5 PN", [⟨none⟩]⟩ ⟨none⟩ (by decide) rfl rfl⟩

/-! ### Claim C7 -/

/-- C7: a navigation error or wait timeout makes `crawl_page` return the
empty record sequence (the exception is caught inside `crawl_page`), and
the crawl loop over any page range behaves exactly as if that page had
yielded zero listings — every other page's contribution is unchanged. -/
theorem claim7_page_error_isolated (renderer : Nat → PageOutcome) (k : Nat)
    (pages : List Nat)
    (h : renderer k = .navError ∨ renderer k = .waitTimeout) :
    crawl_page (renderer k) = [] ∧
    crawl_range renderer pages =
      crawl_range (fun i => if i = k then .found [] else renderer i) pages := by
  have hempty : crawl_page (renderer k) = [] := by
    rcases h with h | h <;> rw [h] <;> rfl
  refine ⟨hempty, ?_⟩
  unfold crawl_range
  induction pages with
  | nil => rfl
  | cons q qs ih =>
    rw [List.flatMap_cons, List.flatMap_cons, ih]
    by_cases hqk : q = k
    · subst hqk
      simp [hempty, show crawl_page (PageOutcome.found []) = [] from rfl]
    · simp [hqk]

theorem claim7_witness :
    crawl_page ((fun _ => PageOutcome.navError) 2) = [] ∧
    crawl_range (fun _ => PageOutcome.navError) [1, 2, 3] =
      crawl_range (fun i => if i = 2 then .found [] else (fun _ => PageOutcome.navError) i)
        [1, 2, 3] :=
  claim7_page_error_isolated (fun _ => PageOutcome.navError) 2 [1, 2, 3] (Or.inl rfl)

/-! ### Claim C8 -/

/-- Numbering keeps the row count. -/
theorem addSTT_length (l : List ListingRecord) : (addSTT l).length = l.length := by
  simp [addSTT]

/-- The sequence numbers are exactly `1..N` in order. -/
theorem addSTT_map_fst (l : List ListingRecord) :
    (addSTT l).map Prod.fst = List.range' 1 l.length :=
  List.map_fst_zip _ _ (by simp)

/-- The rows themselves are unchanged and in order. -/
theorem addSTT_map_snd (l : List ListingRecord) :
    (addSTT l).map Prod.snd = l :=
  List.map_snd_zip _ _ (by simp)

/-- C8: over a three-page range yielding 2, 0 and 5 records, the final
output has exactly 7 rows, numbered 1..7, whose contents are page 1's
records (in order) followed by page 3's records (in order). -/
theorem claim8_sequence_numbers (renderer : Nat → PageOutcome)
    (h1 : (crawl_page (renderer 1)).length = 2)
    (h2 : crawl_page (renderer 2) = [])
    (h3 : (crawl_page (renderer 3)).length = 5) :
    (addSTT (crawl_range renderer [1, 2, 3])).length = 7 ∧
    (addSTT (crawl_range renderer [1, 2, 3])).map Prod.fst = [1, 2, 3, 4, 5, 6, 7] ∧
    (addSTT (crawl_range renderer [1, 2, 3])).map Prod.snd =
      crawl_page (renderer 1) ++ crawl_page (renderer 3) := by
  have hrange : crawl_range renderer [1, 2, 3] =
      crawl_page (renderer 1) ++ crawl_page (renderer 3) := by
    simp [crawl_range, h2]
  have hlen : (crawl_range renderer [1, 2, 3]).length = 7 := by
    rw [hrange, List.length_append, h1, h3]
  refine ⟨?_, ?_, ?_⟩
  · rw [addSTT_length, hlen]
  · rw [addSTT_map_fst, hlen]
    decide
  · rw [addSTT_map_snd, hrange]

theorem claim8_witness :
    (crawl_page (renderer8 1)).length = 2 ∧
    crawl_page (renderer8 2) = [] ∧
    (crawl_page (renderer8 3)).length = 5 ∧
    ((addSTT (crawl_range renderer8 [1, 2, 3])).length = 7 ∧
     (addSTT (crawl_range renderer8 [1, 2, 3])).map Prod.fst = [1, 2, 3, 4, 5, 6, 7] ∧
     (addSTT (crawl_range renderer8 [1, 2, 3])).map Prod.snd =
       crawl_page (renderer8 1) ++ crawl_page (renderer8 3)) :=
  ⟨by decide, by decide, by decide,
    claim8_sequence_numbers renderer8 (by decide) (by decide) (by decide)⟩

/-! ### Claim C4 -/

/-- With zero records the frame has no listing columns, and selecting
`column_order` raises `KeyError`. -/
theorem main_export_nil : main_export [] = .error "KeyError" := by decide

/-- With at least one record all columns exist and the export succeeds. -/
theorem main_export_cons (x : ListingRecord) (xs : List ListingRecord) :
    main_export (x :: xs) = .ok (addSTT (x :: xs)) := rfl

/-- C4, as stated, is false: when every page yields zero listings the
accumulated list is empty, `pd.DataFrame([])` has no columns, and the
column reordering `df[column_order]` raises `KeyError` — the run does not
complete successfully. -/
theorem claim4_counterexample :
    main_run (fun _ => PageOutcome.navError) = .error "KeyError" := by decide

/-- C4 (amended): a complete run reaches the export and succeeds **iff**
at least one listing was collected over the whole 30-page range; with zero
listings the column-reordering step raises `KeyError`. -/
theorem claim4_success_iff (renderer : Nat → PageOutcome) :
    main_run renderer =
      (if crawl_range renderer (List.range' 1 30) = [] then .error "KeyError"
       else .ok (addSTT (crawl_range renderer (List.range' 1 30)))) := by
  by_cases h : crawl_range renderer (List.range' 1 30) = []
  · rw [main_run, h, if_pos rfl, main_export_nil]
  · obtain ⟨x, xs, hxx⟩ := List.exists_cons_of_ne_nil h
    rw [main_run, hxx, main_export_cons, if_neg (List.cons_ne_nil x xs)]
